import Mathlib

/- Verification of the `discardedmuts` Go linter (pkg/discardedmuts/analyzer.go).
   The analyzer walks every function declaration of a file, builds a table of
   parameter names to their resolved types, and runs three detectors over the
   body: assignment to a by-value parameter (case 1), assignment to the value
   variable of a range loop over a slice/array (case 2), and passing the
   address of an identifier to a call (case 3).  Below, the Go AST shapes the
   analyzer inspects are embedded as `Expr`/`Stmt`, the go/types service as
   `Pass.typeOf`, and `run` mirrors the `run` function of the source. -/

namespace Discardedmuts

/-- The view of go/types types the analyzer uses: it type-switches on
`*types.Pointer`, `*types.Slice`, `*types.Array`, `*types.Struct`, and calls
`.Underlying()` which resolves a defined (named) type to its underlying
structural type.  Struct field types are never inspected by the analyzer, so a
struct carries only its field names. -/
inductive GoType where
  | basic : String → GoType
  | pointer : GoType → GoType
  | slice : GoType → GoType
  | array : Nat → GoType → GoType
  | structT : List String → GoType
  | named : String → GoType → GoType
deriving Repr, DecidableEq

/-- A parameter: one name of a `FuncType.Params` field together with the type
`pass.TypesInfo.ObjectOf(ident).Type()` resolves for it. -/
structure Param where
  name : String
  typ : GoType
deriving Repr, DecidableEq

/-- Unary operators: the analyzer only tests for `token.AND` (address-of). -/
inductive UnOp where
  | and
  | other
deriving Repr, DecidableEq

mutual
/-- Go expressions, with the node shapes `run` distinguishes:
`*ast.Ident` (name, position), `*ast.SelectorExpr` (X, Sel.Name, Sel.Pos),
`*ast.IndexExpr`, `*ast.StarExpr`, `*ast.UnaryExpr`, `*ast.CallExpr`,
`*ast.FuncLit` (a function literal: its parameter list and body), and a
literal standing for every other leaf expression. -/
inductive Expr where
  | ident : String → Nat → Expr
  | selector : Expr → String → Nat → Expr
  | index : Expr → Expr → Expr
  | star : Expr → Expr
  | unary : UnOp → Expr → Expr
  | call : Expr → List Expr → Expr
  | funcLit : List Param → List Stmt → Expr
  | lit : Nat → Expr

/-- Go statements the analyzer distinguishes: `*ast.AssignStmt` (Lhs, Rhs),
`*ast.RangeStmt` (Key, Value, X, Body), an expression statement, and a block.
`ast.Inspect` descends into all of them. -/
inductive Stmt where
  | assign : List Expr → List Expr → Stmt
  | rangeStmt : Option Expr → Option Expr → Expr → List Stmt → Stmt
  | exprStmt : Expr → Stmt
  | block : List Stmt → Stmt
end

/-- A function declaration (`*ast.FuncDecl`): name, parameters, body.
In Go, `FuncDecl` occurs only at the top level of a file; functions nested in
a body are `FuncLit` expressions. -/
structure FuncDecl where
  name : String
  params : List Param
  body : List Stmt

/-- A file: its top-level function declarations (the only nodes the outer
`ast.Inspect` callback of `run` reacts to). -/
structure File where
  decls : List FuncDecl

/-- A reported diagnostic: `pass.Reportf(pos, msg, args...)`. -/
structure Diag where
  pos : Nat
  msg : String
deriving Repr, DecidableEq

/-- The type-information service: `pass.TypesInfo.TypeOf(expr)`, which may
fail (return nil, here `none`). -/
structure Pass where
  typeOf : Expr → Option GoType

/-- Source: `isPointer` — a direct type assertion `typ.(*types.Pointer)`;
it does not resolve named types through `Underlying`. -/
def isPointer : GoType → Bool
  | .pointer _ => true
  | _ => false

/-- Source: `isSliceOrArray` — a direct type switch on `*types.Slice` and
`*types.Array`; it does not resolve named types through `Underlying`. -/
def isSliceOrArray : GoType → Bool
  | .slice _ => true
  | .array _ _ => true
  | _ => false

/-- Source: `getElementType` (defined in the source, unused by `run`). -/
def getElementType : GoType → Option GoType
  | .slice e => some e
  | .array _ e => some e
  | _ => none

/-- go/types `Type.Underlying()`: resolves a defined (named) type to its
underlying structural type; on any other type it is the identity. -/
def Underlying : GoType → GoType
  | .named _ u => Underlying u
  | t => t

/-- go/types `types.TypeString(t, nil)`, for the type shapes of this model.
Struct field lists are abstracted (the analyzer never prints a struct type on
any source-reachable path that depends on its fields). -/
def typeString : GoType → String
  | .basic s => s
  | .pointer t => "*" ++ typeString t
  | .slice t => "[]" ++ typeString t
  | .array n t => "[" ++ toString n ++ "]" ++ typeString t
  | .structT _ => "struct"
  | .named n _ => n

mutual
/-- go/types `types.ExprString`: re-renders an expression's source text. -/
def exprString : Expr → String
  | .ident n _ => n
  | .selector x s _ => exprString x ++ "." ++ s
  | .index x i => exprString x ++ "[" ++ exprString i ++ "]"
  | .star x => "*" ++ exprString x
  | .unary op x => (match op with | .and => "&" | .other => "-") ++ exprString x
  | .call f args => exprString f ++ "(" ++ exprStringList args ++ ")"
  | .funcLit _ _ => "func literal"
  | .lit n => toString n

/-- Comma-separated rendering of call arguments, for `exprString`. -/
def exprStringList : List Expr → String
  | [] => ""
  | [e] => exprString e
  | e :: e2 :: es => exprString e ++ ", " ++ exprStringList (e2 :: es)
end

/-- The `switch expr := lhs.(type)` of cases 1 and 2: an assignment target
resolves to its root identifier (name, position) when it is a bare `*ast.Ident`
or a `*ast.SelectorExpr` whose `X` is directly an `*ast.Ident`; every other
shape (index expressions, deeper selectors, star expressions, ...) yields no
identifier. -/
def lhsRootIdent : Expr → Option (String × Nat)
  | .ident n p => some (n, p)
  | .selector x _ _ =>
    match x with
    | .ident n p => some (n, p)
    | _ => none
  | _ => none

/-- The case-1 message format string of `pass.Reportf`. -/
def case1Msg (n : String) : String :=
  "modification to '" ++ n ++ "' is discarded because it is passed by value; pass by reference instead"

/-- Lookup in the `paramNames` map. The Go map is built by inserting each
parameter name in order (a later insertion overwrites an earlier one), so the
lookup finds the last binding. -/
def findParam (pn : List (String × GoType)) (n : String) : Option GoType :=
  pn.reverse.lookup n

/-- Case 1 at one `*ast.AssignStmt`: for each Lhs target whose root identifier
is a non-pointer parameter, report at the identifier's position. -/
def case1Assign (pn : List (String × GoType)) (lhss : List Expr) : List Diag :=
  lhss.filterMap fun lhs =>
    match lhsRootIdent lhs with
    | some (n, p) =>
      match findParam pn n with
      | some t => if isPointer t then none else some ⟨p, case1Msg n⟩
      | none => none
    | none => none

/-- The case-2 message format string of `pass.Reportf` (note the verbatim
`&&` the source places before the rendered sequence expression). -/
def case2Msg (n sliceText : String) : String :=
  "modification to slice element '" ++ n ++ "' is discarded; use index to modify directly, e.g., '&&" ++ sliceText ++ "[i] = ...'"

/-- Case 2's check at one `*ast.AssignStmt` inside a range body: each Lhs
target whose root identifier bears the range value variable's name is
reported at the target identifier's position. -/
def case2Assign (v sliceText : String) (lhss : List Expr) : List Diag :=
  lhss.filterMap fun lhs =>
    match lhsRootIdent lhs with
    | some (n, p) => if n == v then some ⟨p, case2Msg v sliceText⟩ else none
    | none => none

mutual
/-- The nested `ast.Inspect(rangeStmt.Body, ...)` of case 2: visit every node
of a statement, reacting only to assignment statements. -/
def scanStmt (v st : String) : Stmt → List Diag
  | .assign lhs rhs => case2Assign v st lhs ++ scanExprList v st lhs ++ scanExprList v st rhs
  | .rangeStmt k val x body =>
      scanOpt v st k ++ scanOpt v st val ++ scanExpr v st x ++ scanStmtList v st body
  | .exprStmt e => scanExpr v st e
  | .block ss => scanStmtList v st ss

/-- `scanStmt` on an optional child node. -/
def scanOpt (v st : String) : Option Expr → List Diag
  | some e => scanExpr v st e
  | none => []

/-- The nested inspection of case 2 descending through an expression
(function literals' bodies included, as `ast.Inspect` descends into them). -/
def scanExpr (v st : String) : Expr → List Diag
  | .ident _ _ => []
  | .selector x _ _ => scanExpr v st x
  | .index x i => scanExpr v st x ++ scanExpr v st i
  | .star x => scanExpr v st x
  | .unary _ x => scanExpr v st x
  | .call f args => scanExpr v st f ++ scanExprList v st args
  | .funcLit _ body => scanStmtList v st body
  | .lit _ => []

/-- `scanExpr` over a list of expressions. -/
def scanExprList (v st : String) : List Expr → List Diag
  | [] => []
  | e :: es => scanExpr v st e ++ scanExprList v st es

/-- `scanStmt` over a list of statements. -/
def scanStmtList (v st : String) : List Stmt → List Diag
  | [] => []
  | s :: ss => scanStmt v st s ++ scanStmtList v st ss
end

/-- Case 2 at one `*ast.RangeStmt`: when the Value is an identifier, the type
of the ranged expression is (directly, without resolving named types) a slice
or array, and the identifier is not `_`, scan the loop body; otherwise
nothing.  The sequence text is `types.ExprString(rangeStmt.X)`. -/
def case2Range (pass : Pass) (value : Option Expr) (x : Expr) (body : List Stmt) : List Diag :=
  match value with
  | some (.ident n _) =>
    match pass.typeOf x with
    | some t => if isSliceOrArray t && n != "_" then scanStmtList n (exprString x) body else []
    | none => []
  | _ => []

/-- Case 3's display name for the callee: a bare identifier's name, the
member name when called through a qualifier, else a placeholder. -/
def callFunName : Expr → String
  | .ident n _ => n
  | .selector _ s _ => s
  | _ => "(unknown)"

/-- The case-3 message for a slice/array underlying type. -/
def case3SliceMsg (n f : String) : String :=
  "passing address of slice element '" ++ n ++ "' to '" ++ f ++ "' will modify a copy; if you want to modify the original, pass a pointer to the element, e.g., '&" ++ n ++ "[i]'"

/-- The case-3 message for a struct underlying type. -/
def case3StructMsg (n f : String) : String :=
  "passing address of struct field '" ++ n ++ "' to '" ++ f ++ "' will modify a copy; if you want to modify the original, pass a pointer to the struct, e.g., '&" ++ n ++ "'"

/-- The case-3 message of the default branch, naming the underlying type. -/
def case3OtherMsg (n ts f : String) : String :=
  "passing address of '" ++ n ++ "' (type " ++ ts ++ ") to '" ++ f ++ "' is passing a copy; if you want to modify the original, pass a pointer to it, e.g., '&" ++ n ++ "[i]'"

/-- Case 3 at one call argument: when the argument is `&x` with `x` a bare
identifier or a selector whose base is an identifier, look up the (base)
identifier's type; if resolved, report according to the type's `Underlying`
shape: slice/array, struct, or anything else. -/
def case3Arg (pass : Pass) (funName : String) (arg : Expr) : List Diag :=
  match arg with
  | .unary .and x =>
    match (match x with
           | .ident n p => some (n, p)
           | .selector b _ _ =>
             match b with
             | .ident n p => some (n, p)
             | _ => none
           | _ => none : Option (String × Nat)) with
    | some (n, p) =>
      match pass.typeOf (.ident n p) with
      | some t =>
        match Underlying t with
        | .slice _ => [⟨p, case3SliceMsg n funName⟩]
        | .array _ _ => [⟨p, case3SliceMsg n funName⟩]
        | .structT _ => [⟨p, case3StructMsg n funName⟩]
        | u => [⟨p, case3OtherMsg n (typeString u) funName⟩]
      | none => []
    | none => []
  | _ => []

/-- Case 3 at one `*ast.CallExpr`: every argument is examined. -/
def case3Call (pass : Pass) (f : Expr) (args : List Expr) : List Diag :=
  args.flatMap (case3Arg pass (callFunName f))

mutual
/-- The body inspection `ast.Inspect(fn.Body, ...)`: at each node the three
cases run (each node has one shape, so at most one case reacts), then the
traversal descends into the children in `ast.Walk` order. -/
def walkStmt (pn : List (String × GoType)) (pass : Pass) : Stmt → List Diag
  | .assign lhs rhs =>
      case1Assign pn lhs ++ walkExprList pn pass lhs ++ walkExprList pn pass rhs
  | .rangeStmt k val x body =>
      case2Range pass val x body ++ walkOpt pn pass k ++ walkOpt pn pass val
        ++ walkExpr pn pass x ++ walkStmtList pn pass body
  | .exprStmt e => walkExpr pn pass e
  | .block ss => walkStmtList pn pass ss

/-- `walkExpr` on an optional child node. -/
def walkOpt (pn : List (String × GoType)) (pass : Pass) : Option Expr → List Diag
  | some e => walkExpr pn pass e
  | none => []

/-- The body inspection descending through an expression.  A function
literal's body is walked with the same (enclosing declaration's) parameter
table: the outer callback of `run` reacts only to `*ast.FuncDecl`, never to
`*ast.FuncLit`, so no table is built for function literals. -/
def walkExpr (pn : List (String × GoType)) (pass : Pass) : Expr → List Diag
  | .ident _ _ => []
  | .selector x _ _ => walkExpr pn pass x
  | .index x i => walkExpr pn pass x ++ walkExpr pn pass i
  | .star x => walkExpr pn pass x
  | .unary _ x => walkExpr pn pass x
  | .call f args => case3Call pass f args ++ walkExpr pn pass f ++ walkExprList pn pass args
  | .funcLit _ body => walkStmtList pn pass body
  | .lit _ => []

/-- `walkExpr` over a list of expressions. -/
def walkExprList (pn : List (String × GoType)) (pass : Pass) : List Expr → List Diag
  | [] => []
  | e :: es => walkExpr pn pass e ++ walkExprList pn pass es

/-- `walkStmt` over a list of statements. -/
def walkStmtList (pn : List (String × GoType)) (pass : Pass) : List Stmt → List Diag
  | [] => []
  | s :: ss => walkStmt pn pass s ++ walkStmtList pn pass ss
end

/-- The `paramNames` map of `run`: each parameter name mapped to its resolved
type, inserted in declaration order. -/
def paramTable (ps : List Param) : List (String × GoType) :=
  ps.map fun p => (p.name, p.typ)

/-- Analysis of one `*ast.FuncDecl`: build the parameter table, then inspect
the body. -/
def analyzeDecl (pass : Pass) (fd : FuncDecl) : List Diag :=
  walkStmtList (paramTable fd.params) pass fd.body

/-- The analyzer's `run`: every top-level function declaration of the file is
analyzed once; the diagnostics accumulate in the reporting sink, and the
function returns `nil, nil` — the error component of the result is always
`none`. -/
def run (pass : Pass) (f : File) : List Diag × Option String :=
  (f.decls.flatMap (analyzeDecl pass), none)

/-- Spec-side notion (not from the source): the root identifier of an
arbitrarily deep access path — the base name reached through selector, index
and star expressions.  Used to state claims about "a field access rooted at
p". -/
def rootName : Expr → Option String
  | .ident n _ => some n
  | .selector x _ _ => rootName x
  | .index x _ => rootName x
  | .star x => rootName x
  | _ => none

/-- A type-information service that resolves nothing (no queried node has a
recorded type); cases 1 and 2 over parameters do not consult it. -/
def passNone : Pass := ⟨fun _ => none⟩

/-- A service typing the identifier `s` (at position 1) as a bare slice. -/
def passSeq : Pass :=
  ⟨fun e =>
    match e with
    | .ident "s" 1 => some (.slice (.basic "int"))
    | _ => none⟩

/-- Declaration `func f(p T) { p.a.b = 0 }` with `T` a struct type: the
assignment target is a two-level field access rooted at the by-value
parameter `p`. -/
def fileDeepSel : File :=
  ⟨[⟨"f", [⟨"p", .structT ["a"]⟩],
    [.assign [.selector (.selector (.ident "p" 10) "a" 11) "b" 12] [.lit 0]]⟩]⟩

/-- Declaration `func f(p []int) { p[0] = 1 }`: the assignment target is an
index access on the by-value parameter `p`. -/
def fileIndexTarget : File :=
  ⟨[⟨"f", [⟨"p", .slice (.basic "int")⟩],
    [.assign [.index (.ident "p" 5) (.lit 0)] [.lit 1]]⟩]⟩

/-- A service typing the identifier `v` (at position 2) as a defined type
whose underlying type is a slice. -/
def passNamedSeqArg : Pass :=
  ⟨fun e =>
    match e with
    | .ident "v" 2 => some (.named "Items" (.slice (.basic "int")))
    | _ => none⟩

/-- Declaration `func f(p PInt) { p = 0 }` where `type PInt *int`: the
parameter's declared type is a defined type whose underlying type is a
pointer. -/
def fileNamedPtrParam : File :=
  ⟨[⟨"f", [⟨"p", .named "PInt" (.pointer (.basic "int"))⟩],
    [.assign [.ident "p" 7] [.lit 0]]⟩]⟩

/-- The service of the repository's range-loop scenario: `ts.collectables`
is typed as a slice of the defined struct type `Collectable`. -/
def passCollect : Pass :=
  ⟨fun e =>
    match e with
    | .selector (.ident "ts" 3) "collectables" 4 =>
        some (.slice (.named "Collectable" (.structT ["checked"])))
    | _ => none⟩

/-- Declaration `func somethingElse(ts *TestStruct) { for _, c := range
ts.collectables { c.checked = true } }` from the repository's test data. -/
def fileRangeField : File :=
  ⟨[⟨"somethingElse", [⟨"ts", .pointer (.named "TestStruct" (.structT ["Name", "collectables"]))⟩],
    [.rangeStmt (some (.ident "_" 1)) (some (.ident "c" 2))
      (.selector (.ident "ts" 3) "collectables" 4)
      [.assign [.selector (.ident "c" 5) "checked" 6] [.lit 1]]]⟩]⟩

/-- A service typing the identifier `items` (at position 3) as a defined
type whose underlying type is a slice. -/
def passNamedSeqRange : Pass :=
  ⟨fun e =>
    match e with
    | .ident "items" 3 => some (.named "Items" (.slice (.basic "int")))
    | _ => none⟩

/-- Declaration `func f() { for _, v := range items { v = 1 } }` where
`items` has a defined type with underlying slice type. -/
def fileNamedSeqRange : File :=
  ⟨[⟨"f", [],
    [.rangeStmt (some (.ident "_" 1)) (some (.ident "v" 2)) (.ident "items" 3)
      [.assign [.ident "v" 5] [.lit 1]]]⟩]⟩

/-- Declaration `func outer() { f := func(q Q) { q.x = 1 }; ... }` reduced to
its function literal: a closure with a by-value struct parameter `q` whose
field is assigned inside the closure's body. -/
def fileClosureParam : File :=
  ⟨[⟨"outer", [],
    [.exprStmt (.funcLit [⟨"q", .structT ["x"]⟩]
      [.assign [.selector (.ident "q" 9) "x" 10] [.lit 1]])]⟩]⟩

/-- Declaration `func f() { g(&v) }` where the service cannot resolve the
type of `v`. -/
def fileUnresolvedArg : File :=
  ⟨[⟨"f", [], [.exprStmt (.call (.ident "g" 1) [.unary .and (.ident "v" 2)])]⟩]⟩

/-- A service typing the identifier `v` (at position 2) as a bare slice. -/
def passSliceV : Pass :=
  ⟨fun e =>
    match e with
    | .ident "v" 2 => some (.slice (.basic "int"))
    | _ => none⟩

/-- Declaration `func f() { g(&v.a.b) }`: the call argument takes the address
of a two-level field access rooted at `v`. -/
def fileDeepAddr : File :=
  ⟨[⟨"f", [], [.exprStmt (.call (.ident "g" 1)
    [.unary .and (.selector (.selector (.ident "v" 2) "a" 3) "b" 4)])]⟩]⟩

/-- C1, counterexample: in `func f(p T) { p.a.b = 0 }` the assignment target
`p.a.b` is a field access rooted at the by-value parameter `p`, yet the run
produces no diagnostic at all — the target resolution only handles a selector
whose operand is directly an identifier, so the claim's "every assignment
whose left-hand target is ... a field access rooted at p produces exactly one
diagnostic" fails here. -/
theorem c1_deep_selector_unflagged :
    rootName (.selector (.selector (.ident "p" 10) "a" 11) "b" 12) = some "p"
    ∧ isPointer (.structT ["a"]) = false
    ∧ (run passNone fileDeepSel).fst = [] :=
  ⟨rfl, rfl, rfl⟩

/-- C1, amended: for every assignment whose left-hand target is the bare name
`p` or a one-level field access `p.field` (a selector whose operand is
directly the identifier `p`), where `p` is a non-pointer-typed parameter, the
assignment produces exactly one diagnostic, at `p`'s position in the target,
with the message "modification to '<name>' is discarded because it is passed
by value; pass by reference instead". -/
theorem c1_value_param_assign (pn : List (String × GoType)) (pass : Pass)
    (p fld : String) (pp sp : Nat) (lhs rhs : Expr) (t : GoType)
    (hlhs : lhs = .ident p pp ∨ lhs = .selector (.ident p pp) fld sp)
    (hp : findParam pn p = some t) (hnp : isPointer t = false)
    (hrhs : walkExpr pn pass rhs = []) :
    walkStmt pn pass (.assign [lhs] [rhs]) = [⟨pp, case1Msg p⟩] := by
  rcases hlhs with h | h <;> subst h <;>
    simp [walkStmt, walkExprList, walkExpr, case1Assign, lhsRootIdent, hp, hnp, hrhs]

/-- C1, witness: the amended theorem applied to `func f(p T) { p.a = 0 }`. -/
theorem c1_value_param_assign_witness :
    walkStmt [("p", .structT ["a"])] passNone
      (.assign [.selector (.ident "p" 3) "a" 4] [.lit 0]) = [⟨3, case1Msg "p"⟩] :=
  c1_value_param_assign [("p", .structT ["a"])] passNone "p" "a" 3 4
    (.selector (.ident "p" 3) "a" 4) (.lit 0) (.structT ["a"])
    (Or.inr rfl) rfl rfl rfl

/-- C4, counterexample: in `func f(p []int) { p[0] = 1 }` the assignment
target is an index access whose root identifier is the by-value parameter
`p`, yet the run produces no diagnostic — the target switch has no case for
index expressions, contradicting the claim that an index-access target is
handled exactly as a bare-name or field-access target. -/
theorem c4_index_target_unflagged :
    rootName (.index (.ident "p" 5) (.lit 0)) = some "p"
    ∧ isPointer (.slice (.basic "int")) = false
    ∧ (run passNone fileIndexTarget).fst = [] :=
  ⟨rfl, rfl, rfl⟩

/-- C4, amended: an assignment whose left-hand target is an index access
(`p[k] = x`) never resolves a root identifier and produces no diagnostic,
whatever the parameter table holds — only bare names and one-level field
accesses are resolved. -/
theorem c4_index_target_silent (pn : List (String × GoType)) (pass : Pass)
    (p : String) (pp : Nat) (ie rhs : Expr)
    (hi : walkExpr pn pass ie = []) (hr : walkExpr pn pass rhs = []) :
    walkStmt pn pass (.assign [.index (.ident p pp) ie] [rhs]) = [] := by
  simp [walkStmt, case1Assign, lhsRootIdent, walkExprList, walkExpr, hi, hr]

/-- C4, witness: the amended theorem applied to `func f(p []int) { p[0] = 1 }`
with `p` a by-value slice parameter. -/
theorem c4_index_target_silent_witness :
    walkStmt [("p", .slice (.basic "int"))] passNone
      (.assign [.index (.ident "p" 5) (.lit 0)] [.lit 1]) = [] :=
  c4_index_target_silent [("p", .slice (.basic "int"))] passNone "p" 5
    (.lit 0) (.lit 1) rfl rfl

/-- C5, counterexample: in `func f(p PInt) { p = 0 }` where `type PInt *int`,
the parameter's type underlies to a pointer, yet the value-parameter-mutation
check does fire (the pointer test is a direct type assertion that does not
resolve defined types), contradicting the claim that parameters of a named
type with pointer underlying type are always excluded. -/
theorem c5_named_pointer_reported :
    isPointer (Underlying (.named "PInt" (.pointer (.basic "int")))) = true
    ∧ (run passNone fileNamedPtrParam).fst = [⟨7, case1Msg "p"⟩] :=
  ⟨rfl, rfl⟩

/-- C5, amended: for a parameter `p` whose declared type is syntactically a
pointer type, no assignment `p = x`, `p.field = x` or `*p = x` produces a
diagnostic; a parameter whose declared type is a named type with pointer
underlying type is not excluded by the check. -/
theorem c5_pointer_param_silent (pn : List (String × GoType)) (pass : Pass)
    (p fld : String) (pp sp : Nat) (lhs rhs : Expr) (t : GoType)
    (hlhs : lhs = .ident p pp ∨ lhs = .selector (.ident p pp) fld sp
      ∨ lhs = .star (.ident p pp))
    (hp : findParam pn p = some (.pointer t))
    (hr : walkExpr pn pass rhs = []) :
    walkStmt pn pass (.assign [lhs] [rhs]) = [] := by
  rcases hlhs with h | h | h <;> subst h <;>
    simp [walkStmt, walkExprList, walkExpr, case1Assign, lhsRootIdent, hp, isPointer, hr]

/-- C5, witness: the amended theorem applied to `func f(p *S) { p.f = 0 }`. -/
theorem c5_pointer_param_silent_witness :
    walkStmt [("p", .pointer (.structT ["f"]))] passNone
      (.assign [.selector (.ident "p" 3) "f" 4] [.lit 0]) = [] :=
  c5_pointer_param_silent [("p", .pointer (.structT ["f"]))] passNone "p" "f" 3 4
    (.selector (.ident "p" 3) "f" 4) (.lit 0) (.structT ["f"])
    (Or.inr (Or.inl rfl)) rfl rfl

/-- C2: for a range loop binding the value element `v` over a sequence-typed
expression `x`, an assignment `v = e` or `v.field = e` inside the loop body
produces exactly one diagnostic, naming `v` and carrying the rendered source
text of `x`; the same assignment written after the loop — where `v` names an
outer variable that is not a parameter — produces none: the loop-element
binding is scoped to the loop body only. -/
theorem c2_range_value_scoped (pn : List (String × GoType)) (pass : Pass)
    (v fld : String) (kp vp lp sp : Nat) (x lhs rhs : Expr) (t : GoType)
    (hlhs : lhs = .ident v lp ∨ lhs = .selector (.ident v lp) fld sp)
    (ht : pass.typeOf x = some t) (hseq : isSliceOrArray t = true)
    (hv : (v != "_") = true)
    (hout : findParam pn v = none)
    (hx : walkExpr pn pass x = [])
    (hrs : scanExpr v (exprString x) rhs = [])
    (hrw : walkExpr pn pass rhs = []) :
    walkStmtList pn pass
      [.rangeStmt (some (.ident "_" kp)) (some (.ident v vp)) x [.assign [lhs] [rhs]],
       .assign [lhs] [rhs]]
      = [⟨lp, case2Msg v (exprString x)⟩] := by
  rcases hlhs with h | h <;> subst h <;>
    simp [walkStmtList, walkStmt, walkOpt, walkExpr, walkExprList, case2Range,
      case1Assign, lhsRootIdent, case2Assign, scanStmtList, scanStmt, scanExprList,
      scanExpr, ht, hseq, hv, hout, hx, hrs, hrw]

/-- C2, witness: the theorem applied to
`for _, v := range s { v = 0 }; v = 0` with `s` a bare slice. -/
theorem c2_range_value_scoped_witness :
    walkStmtList [] passSeq
      [.rangeStmt (some (.ident "_" 5)) (some (.ident "v" 6)) (.ident "s" 1)
        [.assign [.ident "v" 7] [.lit 0]],
       .assign [.ident "v" 7] [.lit 0]]
      = [⟨7, case2Msg "v" (exprString (.ident "s" 1))⟩] :=
  c2_range_value_scoped [] passSeq "v" "f" 5 6 7 0 (.ident "s" 1) (.ident "v" 7)
    (.lit 0) (.slice (.basic "int")) (Or.inl rfl) rfl rfl (by decide) rfl rfl rfl rfl

/-- C7, counterexample: ranging over `items` whose type is a defined type
with underlying slice type produces no diagnostic for `v = 1` in the loop
body — the sequence test is a direct type switch that does not resolve
defined types to their underlying shape, contradicting the claim that a
range over a named sequence type is treated like one over a bare slice. -/
theorem c7_named_sequence_unflagged :
    isSliceOrArray (Underlying (.named "Items" (.slice (.basic "int")))) = true
    ∧ (run passNamedSeqRange fileNamedSeqRange).fst = [] :=
  ⟨rfl, rfl⟩

/-- C7, amended: the range-copy detector fires only when the ranged
expression's type is syntactically a slice or array; when that type is a
defined (named) type — whatever its underlying type — the loop contributes
no diagnostic. -/
theorem c7_named_sequence_silent (pn : List (String × GoType)) (pass : Pass)
    (v nm fld : String) (kp vp lp sp : Nat) (x lhs rhs : Expr) (u : GoType)
    (hlhs : lhs = .ident v lp ∨ lhs = .selector (.ident v lp) fld sp)
    (ht : pass.typeOf x = some (.named nm u))
    (hout : findParam pn v = none)
    (hx : walkExpr pn pass x = []) (hr : walkExpr pn pass rhs = []) :
    walkStmt pn pass
      (.rangeStmt (some (.ident "_" kp)) (some (.ident v vp)) x
        [.assign [lhs] [rhs]]) = [] := by
  rcases hlhs with h | h <;> subst h <;>
    simp [walkStmt, walkOpt, walkExpr, walkExprList, walkStmtList, case2Range,
      case1Assign, lhsRootIdent, isSliceOrArray, ht, hout, hx, hr]

/-- C7, witness: the amended theorem applied to
`for _, v := range items { v = 1 }` with `items` of a named slice type. -/
theorem c7_named_sequence_silent_witness :
    walkStmt [] passNamedSeqRange
      (.rangeStmt (some (.ident "_" 1)) (some (.ident "v" 2)) (.ident "items" 3)
        [.assign [.ident "v" 5] [.lit 1]]) = [] :=
  c7_named_sequence_silent [] passNamedSeqRange "v" "Items" "f" 1 2 5 0
    (.ident "items" 3) (.ident "v" 5) (.lit 1) (.slice (.basic "int"))
    (Or.inl rfl) rfl rfl rfl rfl

/-- C10: inside a range-loop body the detector matches assignment targets
against the loop variable by name only.  A short variable declaration
`v := e1` — represented in go/ast as an assignment statement whose token the
analyzer never reads — introduces a new variable shadowing the loop element
and is itself flagged, and a subsequent `v.field = e2`, whose root identifier
denotes the shadowing local rather than the loop element, is flagged as
well: one diagnostic for each, at the respective target positions. -/
theorem c10_matches_by_name_only (pn : List (String × GoType)) (pass : Pass)
    (v fld : String) (kp vp p1 p2 sp : Nat) (x e1 e2 : Expr) (t : GoType)
    (ht : pass.typeOf x = some t) (hseq : isSliceOrArray t = true)
    (hv : (v != "_") = true) (hout : findParam pn v = none)
    (hx : walkExpr pn pass x = [])
    (hs1 : scanExpr v (exprString x) e1 = []) (hw1 : walkExpr pn pass e1 = [])
    (hs2 : scanExpr v (exprString x) e2 = []) (hw2 : walkExpr pn pass e2 = []) :
    walkStmt pn pass
      (.rangeStmt (some (.ident "_" kp)) (some (.ident v vp)) x
        [.assign [.ident v p1] [e1],
         .assign [.selector (.ident v p2) fld sp] [e2]])
      = [⟨p1, case2Msg v (exprString x)⟩, ⟨p2, case2Msg v (exprString x)⟩] := by
  simp [walkStmt, walkOpt, walkExpr, walkExprList, walkStmtList, case2Range,
    case1Assign, case2Assign, lhsRootIdent, scanStmtList, scanStmt, scanExprList,
    scanExpr, ht, hseq, hv, hout, hx, hs1, hw1, hs2, hw2]

/-- C10, witness: the theorem applied to
`for _, v := range s { v := 7; v.f = 8 }` with `s` a bare slice. -/
theorem c10_matches_by_name_only_witness :
    walkStmt [] passSeq
      (.rangeStmt (some (.ident "_" 2)) (some (.ident "v" 3)) (.ident "s" 1)
        [.assign [.ident "v" 10] [.lit 7],
         .assign [.selector (.ident "v" 11) "f" 12] [.lit 8]])
      = [⟨10, case2Msg "v" (exprString (.ident "s" 1))⟩,
         ⟨11, case2Msg "v" (exprString (.ident "s" 1))⟩] :=
  c10_matches_by_name_only [] passSeq "v" "f" 2 3 10 11 12 (.ident "s" 1)
    (.lit 7) (.lit 8) (.slice (.basic "int"))
    rfl rfl (by decide) rfl rfl rfl rfl rfl rfl

/-- C3, counterexample: in `func f() { g(&v.a.b) }` the argument takes the
address of a field access rooted at `v`, whose type the service resolves to
a slice, yet no diagnostic is produced — the argument switch only handles a
selector whose base is directly an identifier, so the claim's "every call
expression f(&v) whose argument takes the address ... of a field access
rooted at v" produces-a-diagnostic fails at depth two. -/
theorem c3_deep_selector_arg_unflagged :
    rootName (.selector (.selector (.ident "v" 2) "a" 3) "b" 4) = some "v"
    ∧ passSliceV.typeOf (.ident "v" 2) = some (.slice (.basic "int"))
    ∧ (run passSliceV fileDeepAddr).fst = [] :=
  ⟨rfl, rfl, rfl⟩

/-- C3, amended: for a call `f(&x)` where `x` is a bare identifier `v` or a
one-level field access `v.field` (a selector whose base is directly the
identifier `v`), and the service resolves `v`'s type, exactly one diagnostic
naming `v` and `f` is produced, worded by the type's underlying shape: the
slice/array message (suggesting `&v[i]`) for a sequence, the struct message
(suggesting `&v`) for a record, and otherwise the generic message naming the
underlying type. -/
theorem c3_addr_arg_classified (pn : List (String × GoType)) (pass : Pass)
    (v f fld : String) (vp fp sp : Nat) (x : Expr) (t : GoType)
    (hx : x = .ident v vp ∨ x = .selector (.ident v vp) fld sp)
    (ht : pass.typeOf (.ident v vp) = some t) :
    (∀ e, Underlying t = GoType.slice e →
      walkExpr pn pass (.call (.ident f fp) [.unary .and x]) = [⟨vp, case3SliceMsg v f⟩])
    ∧ (∀ n e, Underlying t = GoType.array n e →
      walkExpr pn pass (.call (.ident f fp) [.unary .and x]) = [⟨vp, case3SliceMsg v f⟩])
    ∧ (∀ fs, Underlying t = GoType.structT fs →
      walkExpr pn pass (.call (.ident f fp) [.unary .and x]) = [⟨vp, case3StructMsg v f⟩])
    ∧ (isSliceOrArray (Underlying t) = false →
      (∀ fs, Underlying t ≠ GoType.structT fs) →
      walkExpr pn pass (.call (.ident f fp) [.unary .and x])
        = [⟨vp, case3OtherMsg v (typeString (Underlying t)) f⟩]) := by
  have hw : walkExpr pn pass (.call (.ident f fp) [.unary .and x])
      = case3Arg pass f (.unary .and x) := by
    rcases hx with h | h <;> subst h <;>
      simp [walkExpr, walkExprList, case3Call, callFunName]
  have hArg : case3Arg pass f (.unary .and x)
      = (match Underlying t with
         | .slice _ => [⟨vp, case3SliceMsg v f⟩]
         | .array _ _ => [⟨vp, case3SliceMsg v f⟩]
         | .structT _ => [⟨vp, case3StructMsg v f⟩]
         | u => [⟨vp, case3OtherMsg v (typeString u) f⟩]) := by
    rcases hx with h | h <;> subst h <;> simp [case3Arg, ht]
  refine ⟨?_, ?_, ?_, ?_⟩
  · intro e hu
    rw [hw, hArg, hu]
  · intro n e hu
    rw [hw, hArg, hu]
  · intro fs hu
    rw [hw, hArg, hu]
  · intro hseq hstr
    rw [hw, hArg]
    rcases hU : Underlying t with s | t2 | e | ⟨n2, e2⟩ | fs | ⟨nm, u⟩
    · rfl
    · rfl
    · rw [hU] at hseq
      simp [isSliceOrArray] at hseq
    · rw [hU] at hseq
      simp [isSliceOrArray] at hseq
    · exact absurd hU (hstr fs)
    · rfl

/-- C3, witness: the amended theorem applied to `g(&v)` with `v` of a named
type whose underlying type is a slice. -/
theorem c3_addr_arg_classified_witness :
    walkExpr [] passNamedSeqArg (.call (.ident "g" 1) [.unary .and (.ident "v" 2)])
      = [⟨2, case3SliceMsg "v" "g"⟩] :=
  (c3_addr_arg_classified [] passNamedSeqArg "v" "g" "f" 2 1 0 (.ident "v" 2)
    (.named "Items" (.slice (.basic "int"))) (Or.inl rfl) rfl).1 (.basic "int") rfl

/-- C6: at the repository's range-loop scenario (`for _, c := range
ts.collectables { c.checked = true }`) the emitted message is "modification
to slice element 'c' is discarded; use index to modify directly, e.g.,
'&&ts.collectables[i] = ...'": the source's format string places a stray
"&&" before the rendered sequence expression, so the suggested fix does not
begin with the sequence expression as the claim states. -/
theorem c6_stray_ampersands :
    (run passCollect fileRangeField).fst
      = [⟨5, "modification to slice element 'c' is discarded; use index to modify directly, e.g., '&&ts.collectables[i] = ...'"⟩]
    ∧ "modification to slice element 'c' is discarded; use index to modify directly, e.g., '&&ts.collectables[i] = ...'"
      ≠ "modification to slice element 'c' is discarded; use index to modify directly, e.g., 'ts.collectables[i] = ...'" :=
  ⟨rfl, by decide⟩

/-- C8, counterexample: a function literal (closure) with a by-value struct
parameter `q` whose field is assigned inside the closure's body produces no
diagnostic — the walker reacts only to `*ast.FuncDecl` nodes, so no
parameter table is ever built for a nested function literal, contradicting
the claim that every nested function-like declaration is visited with its
own parameter table and checked by the detectors. -/
theorem c8_closure_param_unflagged :
    isPointer (.structT ["x"]) = false
    ∧ (run passNone fileClosureParam).fst = [] :=
  ⟨rfl, rfl⟩

/-- C8, amended: the walker builds a parameter table only for top-level
function declarations; a function literal's body is analyzed against the
enclosing declaration's table, the literal's own parameter list being
ignored entirely — an assignment to a name bound by value in the enclosing
table is flagged inside the closure no matter what the closure's own
parameters declare. -/
theorem c8_closure_uses_outer_table (pn : List (String × GoType)) (pass : Pass)
    (ps : List Param) (p fld : String) (pp sp : Nat) (rhs : Expr) (t : GoType)
    (hp : findParam pn p = some t) (hnp : isPointer t = false)
    (hr : walkExpr pn pass rhs = []) :
    walkExpr pn pass (.funcLit ps [.assign [.selector (.ident p pp) fld sp] [rhs]])
      = [⟨pp, case1Msg p⟩] := by
  simp [walkExpr, walkStmtList, walkStmt, walkExprList, case1Assign, lhsRootIdent,
    hp, hnp, hr]

/-- C8, witness: the closure declares its own parameter `q` of pointer type,
yet `q.x = 0` inside it is flagged against the enclosing declaration's
table, where `q` is a by-value struct — the closure's parameter list played
no role. -/
theorem c8_closure_uses_outer_table_witness :
    walkExpr [("q", .structT ["x"])] passNone
      (.funcLit [⟨"q", .pointer (.structT ["x"])⟩]
        [.assign [.selector (.ident "q" 9) "x" 10] [.lit 0]])
      = [⟨9, case1Msg "q"⟩] :=
  c8_closure_uses_outer_table [("q", .structT ["x"])] passNone
    [⟨"q", .pointer (.structT ["x"])⟩] "q" "x" 9 10 (.lit 0) (.structT ["x"])
    rfl rfl rfl

/-- C9, counterexample: with a type-information service that resolves
nothing, analyzing `func f() { g(&v) }` needs `v`'s type, yet the run
produces no diagnostic for the construct and returns an error component of
`none` — it never aborts with an error, contradicting the claim that the
entry point returns a non-nil error when a required type is unresolvable. -/
theorem c9_no_error_on_unresolved :
    passNone.typeOf (.ident "v" 2) = none
    ∧ run passNone fileUnresolvedArg = ([], none) :=
  ⟨rfl, rfl⟩

/-- C9, amended: when the service cannot resolve the type of an address-of
call argument, that construct is silently skipped (it contributes no
diagnostic) and the run still completes with a nil error, whatever the file
analyzed. -/
theorem c9_unresolved_skipped (pn : List (String × GoType)) (pass : Pass)
    (f v : String) (fp vp : Nat)
    (ht : pass.typeOf (.ident v vp) = none) :
    walkExpr pn pass (.call (.ident f fp) [.unary .and (.ident v vp)]) = []
    ∧ ∀ file : File, (run pass file).snd = none := by
  constructor
  · simp [walkExpr, walkExprList, case3Call, case3Arg, callFunName, ht]
  · intro file
    rfl

/-- C9, witness: the amended theorem applied to `g(&v)` under the
nothing-resolving service, its second part instantiated at the concrete
file. -/
theorem c9_unresolved_skipped_witness :
    walkExpr [] passNone (.call (.ident "g" 1) [.unary .and (.ident "v" 2)]) = []
    ∧ (run passNone fileUnresolvedArg).snd = none :=
  ⟨(c9_unresolved_skipped [] passNone "g" "v" 1 2 rfl).1,
   (c9_unresolved_skipped [] passNone "g" "v" 1 2 rfl).2 fileUnresolvedArg⟩

end Discardedmuts
